import Mathlib

/-!
# Verification of the pokemon-remix scene/battle core

A shallow embedding, in Lean 4, of the parts of the `pokemon-remix`
repository that the specification's testable properties talk about:

* the `Pokemon` battle entity (`src/entities/Entity.ts`): damage
  calculation, `takeDamage` HP clamping and the `isFainted` flag;
* the `BattleScene` input handling and state transitions
  (`BattleScene.onKeyPressed`, `handleStateTransitions`,
  `handleBattleEnd`);
* the `DialogBox` typewriter (`src/entities/TiledMap.ts` second unit):
  `displayText` / `update` / `completeText` and the one-shot completion
  callback;
* `SceneManager.setScene` (`src/scenes/SceneManager.ts`);
* the `GameState` store (`src/state/GameState.ts`): the battle-complete
  event handler, `setNPCDefeated`, `setPlayerPosition`, `addMoney`,
  `setFlag`, `reset`, `serialize` and `deserialize`.

JavaScript numbers are modelled as rationals (`ℚ`) where fractional
arithmetic matters (damage formula, typewriter timing) and as integers
(`ℤ`) where the program only ever holds integral values.  All the
concrete quantities appearing in the theorems below (levels, powers,
stats such as 83/100, the factors 0.85 and 0.15, 1000/60 ms per char)
are exactly representable as IEEE doubles, and the arithmetic on them in
the source stays within exactly representable values, so the rational
idealisation agrees with the JavaScript float semantics at every input
used here.
-/

-- =============================================================================
-- Pokemon battle entity (src/entities/Entity.ts, class Pokemon)
-- =============================================================================

/-- `Move` from `core/interfaces`: a named move with a power. -/
structure Move where
  name : String
  power : ℚ
deriving DecidableEq, Repr

/-- `PokemonStats`: the stat block `{ maxHp, attack, defense }`. -/
structure PokemonStats where
  maxHp : ℚ
  attack : ℚ
  defense : ℚ
deriving DecidableEq, Repr

/-- `PokemonConfig`: immutable construction data for a `Pokemon`. -/
structure PokemonConfig where
  name : String
  level : ℚ
  stats : PokemonStats
  moves : List Move
deriving DecidableEq, Repr

/-- The mutable battle state of the `Pokemon` class: the readonly
configuration fields plus `currentHp` and `isFainted`. -/
structure Pokemon where
  name : String
  level : ℚ
  stats : PokemonStats
  moves : List Move
  currentHp : ℚ
  isFainted : Bool
deriving DecidableEq, Repr

/-- The `Pokemon` constructor: copies the config and sets
`currentHp = stats.maxHp` (and `isFainted = false`, the field
initialiser). -/
def mkPokemon (config : PokemonConfig) : Pokemon :=
  { name := config.name
    level := config.level
    stats := config.stats
    moves := config.moves
    currentHp := config.stats.maxHp
    isFainted := false }

/-- Getter `maxHp` of class `Pokemon`. -/
def Pokemon.maxHp (p : Pokemon) : ℚ := p.stats.maxHp

/-- Getter `attack` of class `Pokemon`. -/
def Pokemon.attack (p : Pokemon) : ℚ := p.stats.attack

/-- Getter `defense` of class `Pokemon`. -/
def Pokemon.defense (p : Pokemon) : ℚ := p.stats.defense

/-- The last line of `Pokemon.calculateDamage` with the already-sampled
random factor abstracted: `Math.floor(baseDamage * randomFactor)` where
`baseDamage = (levelFactor * move.power * attackDefenseRatio) / 50 + 2`,
`levelFactor = (2 * this.level) / 5 + 2` and
`attackDefenseRatio = this.attack / target.defense`. -/
def Pokemon.calculateDamageAtFactor (attacker target : Pokemon) (move : Move)
    (randomFactor : ℚ) : ℤ :=
  let levelFactor : ℚ := 2 * attacker.level / 5 + 2
  let attackDefenseRatio : ℚ := attacker.attack / target.defense
  let baseDamage : ℚ := levelFactor * move.power * attackDefenseRatio / 50 + 2
  Int.floor (baseDamage * randomFactor)

/-- `Pokemon.calculateDamage`, with the result `rnd` of the one
`Math.random()` call passed in as a parameter (`rnd ∈ [0, 1)`): the
random factor is `0.85 + rnd * 0.15`. -/
def Pokemon.calculateDamage (attacker target : Pokemon) (move : Move)
    (rnd : ℚ) : ℤ :=
  attacker.calculateDamageAtFactor target move (85/100 + rnd * (15/100))

/-- `Pokemon.takeDamage`: `currentHp = Math.max(0, currentHp - amount)`;
then, if `currentHp <= 0`, set `isFainted = true` (the `battle:faint`
emission is pure telemetry and carries no state). -/
def Pokemon.takeDamage (p : Pokemon) (amount : ℚ) : Pokemon :=
  let hp : ℚ := max 0 (p.currentHp - amount)
  { p with
    currentHp := hp
    isFainted := if hp ≤ 0 then true else p.isFainted }

/-- A sequence of `takeDamage` calls, applied left to right. -/
def Pokemon.runTakeDamage (p : Pokemon) (amounts : List ℚ) : Pokemon :=
  amounts.foldl Pokemon.takeDamage p

/-- `Pokemon.heal`: `currentHp = Math.min(maxHp, currentHp + amount)`;
`isFainted` is not touched. -/
def Pokemon.heal (p : Pokemon) (amount : ℚ) : Pokemon :=
  { p with currentHp := min p.stats.maxHp (p.currentHp + amount) }

/-- The spec's damage base written from the spec's own words:
`floor(((2L/5+2)*P*(A/D))/50 + 2)`-scaled range, i.e. the quantity
`base = ((2*level/5 + 2) * power * (attack / defense)) / 50 + 2`. -/
def specBaseDamage (level power attack defense : ℚ) : ℚ :=
  ((2 * level / 5 + 2) * power * (attack / defense)) / 50 + 2

/-- `PokemonRegistry.BLASTOISE` from `src/entities/Entity.ts`. -/
def blastoiseConfig : PokemonConfig :=
  { name := "BLASTOISE"
    level := 50
    stats := { maxHp := 100, attack := 83, defense := 100 }
    moves := [⟨"DEATH", 1000⟩, ⟨"HYDRO PUMP", 50⟩, ⟨"HYDRO CANNON", 45⟩,
              ⟨"WATER GUN", 50⟩] }

/-- `PokemonRegistry.VENUSAUR` from `src/entities/Entity.ts`. -/
def venusaurConfig : PokemonConfig :=
  { name := "VENUSAUR"
    level := 50
    stats := { maxHp := 100, attack := 82, defense := 83 }
    moves := [⟨"TACKLE", 10⟩, ⟨"RAZOR LEAF", 55⟩, ⟨"TAKE DOWN", 45⟩,
              ⟨"POWER WHIP", 50⟩] }

-- =============================================================================
-- BattleScene (src/scenes/BattleScene.ts = src/unnamed/part_004)
-- =============================================================================

/-- The `BattleState` const-enum of `BattleScene`. -/
inductive BattleSt where
  | default
  | introNpc
  | introNpcPokemon
  | introPlayerPokemon
  | playerTurn
  | playerAttack
  | npcTurn
  | processing
  | battleEnd
  | winnerDeclared
deriving DecidableEq, Repr

/-- The payload of the `battle:complete` event emitted by
`BattleScene.handleBattleEnd` (`expGained`/`moneyGained` are optional
fields of the event shape). -/
structure BattleCompleteEvent where
  npcId : String
  result : String
  expGained : Option ℤ
  moneyGained : Option ℤ
deriving DecidableEq, Repr

/-- The fields of `BattleScene` that its input handling and state
transitions read and write.  `playerMoves` are the moves of
`this.playerPokemon`; `npcFainted` / `playerFainted` are the
`isFainted` flags of the two pokemon, which `handleBattleEnd`
inspects. -/
structure BScene where
  currentState : BattleSt
  selectedMoveIndex : ℤ
  playerMoves : List Move
  npcFainted : Bool
  playerFainted : Bool
  currentNpcId : String
deriving DecidableEq, Repr

/-- The `keyMoveMap` literal in `BattleScene.onKeyPressed`:
`{'1': 0, '2': 1, '3': 2, '4': 3}`; any other key looks up to
`undefined`. -/
def keyMoveMap (key : String) : Option ℕ :=
  if key = "1" then some 0
  else if key = "2" then some 1
  else if key = "3" then some 2
  else if key = "4" then some 3
  else none

/-- `BattleScene.onKeyPressed`: outside `PLAYER_TURN` the event is
dropped; in `PLAYER_TURN`, a key mapped by `keyMoveMap` stores the
selected index and moves to `PLAYER_ATTACK`; an unmapped key
(`moveIndex === undefined`) changes nothing. -/
def BScene.onKeyPressed (s : BScene) (key : String) : BScene :=
  if s.currentState ≠ BattleSt.playerTurn then s
  else
    match keyMoveMap key with
    | some i => { s with selectedMoveIndex := (i : ℤ),
                         currentState := BattleSt.playerAttack }
    | none => s

/-- `BattleScene.handleBattleEnd`: when the NPC pokemon has fainted the
win dialogue is queued, whose completion callback emits
`battle:complete { npcId: currentNpcId, result: 'win', expGained: 500,
moneyGained: 1000 }`; when the player pokemon has fainted the lose
dialogue's callback emits `{ npcId, result: 'lose' }` with no reward
fields.  Either branch sets the state to `WINNER_DECLARED`.  The value
returned here pairs the updated scene with the event payload that the
queued callback will emit. -/
def BScene.handleBattleEnd (s : BScene) : BScene × Option BattleCompleteEvent :=
  if s.npcFainted then
    ({ s with currentState := BattleSt.winnerDeclared },
     some { npcId := s.currentNpcId, result := "win",
            expGained := some 500, moneyGained := some 1000 })
  else if s.playerFainted then
    ({ s with currentState := BattleSt.winnerDeclared },
     some { npcId := s.currentNpcId, result := "lose",
            expGained := none, moneyGained := none })
  else (s, none)

/-- `BattleScene.handleStateTransitions` (called from `draw`): the three
sequential `if` blocks.  `handlePlayerAttack` / `handleNpcAttack` only
queue dialogue (their state changes happen later in dialogue-completion
callbacks), after which the state is set to `PROCESSING`; a
`BATTLE_END` state runs `handleBattleEnd`. -/
def BScene.handleStateTransitions (s : BScene) :
    BScene × Option BattleCompleteEvent :=
  let s1 := if s.currentState = BattleSt.playerAttack then
              { s with currentState := BattleSt.processing } else s
  let s2 := if s1.currentState = BattleSt.npcTurn then
              { s1 with currentState := BattleSt.processing } else s1
  if s2.currentState = BattleSt.battleEnd then s2.handleBattleEnd
  else (s2, none)

-- =============================================================================
-- DialogBox (src/entities/DialogBox.ts, second unit of TiledMap.ts source file)
-- =============================================================================

/-- The text/typewriter state of `DialogBox`.  The callback reference
`onCompleteCallback` is modelled by whether it is non-null
(`hasCallback`); invoking it is observed through the invocation count
returned by the update functions. -/
structure DialogBox where
  fullText : List Char
  displayedText : List Char
  charQueue : List Char
  textSpeed : ℚ
  timer : ℚ
  isVisible : Bool
  isComplete : Bool
  hasCallback : Bool
deriving DecidableEq, Repr

/-- `DialogBox.displayText(content, onComplete)`: resets the reveal
state to the start of `content` and stores the callback. -/
def DialogBox.displayText (d : DialogBox) (content : List Char)
    (withCallback : Bool) : DialogBox :=
  { d with
    fullText := content
    displayedText := []
    charQueue := content
    isComplete := false
    timer := 0
    hasCallback := withCallback }

/-- `DialogBox.completeText`: marks the text complete, then — if a
callback is stored — clears the reference before invoking it.  The
second component counts the callback invocations this call performs
(1 when a callback was stored, else 0). -/
def DialogBox.completeText (d : DialogBox) : DialogBox × ℕ :=
  ({ d with isComplete := true, hasCallback := false },
   if d.hasCallback then 1 else 0)

/-- The `while (timer >= msPerChar && charQueue.length > 0)` loop of
`DialogBox.update`: shifts characters off the queue onto the displayed
text, subtracting `msPerChar` from the timer per character.  Returns
`(timer, charQueue, displayedText)`. -/
def consumeChars (msPerChar : ℚ) :
    ℚ → List Char → List Char → ℚ × List Char × List Char
  | timer, [], displayed => (timer, [], displayed)
  | timer, c :: rest, displayed =>
    if msPerChar ≤ timer then
      consumeChars msPerChar (timer - msPerChar) rest (displayed ++ [c])
    else (timer, c :: rest, displayed)

/-- `DialogBox.update(deltaTime)`: early return when hidden or already
complete; otherwise accumulate the timer, reveal due characters at
`msPerChar = 1000 / textSpeed`, and on queue exhaustion run
`completeText`.  The second component counts callback invocations. -/
def DialogBox.update (d : DialogBox) (deltaTime : ℚ) : DialogBox × ℕ :=
  if d.isVisible = false ∨ d.isComplete = true then (d, 0)
  else
    let msPerChar : ℚ := 1000 / d.textSpeed
    let r := consumeChars msPerChar (d.timer + deltaTime) d.charQueue
      d.displayedText
    let d1 := { d with timer := r.1, charQueue := r.2.1,
                       displayedText := r.2.2 }
    if d1.charQueue = [] then d1.completeText else (d1, 0)

/-- A sequence of `update` calls, accumulating the number of callback
invocations. -/
def DialogBox.runUpdates (d : DialogBox) : List ℚ → DialogBox × ℕ
  | [] => (d, 0)
  | dt :: rest =>
    let r := d.update dt
    let r2 := r.1.runUpdates rest
    (r2.1, r.2 + r2.2)

-- =============================================================================
-- SceneManager (src/scenes/SceneManager.ts)
-- =============================================================================

/-- Association-list lookup, modelling `Map.get` / plain-object key
lookup (a JavaScript `Map` holds at most one entry per key). -/
def lookupA {β : Type} (k : String) : List (String × β) → Option β
  | [] => none
  | (k', v) :: rest => if k' = k then some v else lookupA k rest

/-- A registered scene object, abstracted to what `setScene` inspects:
whether the optional lifecycle hooks `onExit` / `onEnter` are defined
(`reset` and `setup` are required by the `IScene` interface). -/
structure SceneObj where
  hasOnExit : Bool
  hasOnEnter : Bool
deriving DecidableEq, Repr

/-- A lifecycle call performed on a named scene during `setScene`. -/
inductive HookCall where
  | onExit (scene : String)
  | onEnter (scene : String)
  | reset (scene : String)
  | setup (scene : String)
deriving DecidableEq, Repr

/-- The state of `SceneManager`: the scene registry and the current
scene name. -/
structure SceneManager where
  scenes : List (String × SceneObj)
  currentScene : String
deriving DecidableEq, Repr

/-- `SceneManager.setScene(name)`: if `name` is not registered, log an
error and return with nothing changed; otherwise call `onExit` on the
current scene (when present and when it defines one), swap the current
pointer, call `onEnter` on the next scene (when it defines one), and —
when the scene actually changed — `reset()` then `setup()` on it.
Returns the new manager state paired with the trace of lifecycle calls
performed, in order. -/
def SceneManager.setScene (m : SceneManager) (name : String) :
    SceneManager × List HookCall :=
  let previousScene := m.currentScene
  let currentSceneObj := lookupA previousScene m.scenes
  match lookupA name m.scenes with
  | none => (m, [])
  | some nextSceneObj =>
    let exitCalls := match currentSceneObj with
      | some obj => if obj.hasOnExit then [HookCall.onExit previousScene] else []
      | none => []
    let enterCalls := if nextSceneObj.hasOnEnter then [HookCall.onEnter name] else []
    let resetCalls := if previousScene ≠ name then
        [HookCall.reset name, HookCall.setup name] else []
    ({ m with currentScene := name }, exitCalls ++ enterCalls ++ resetCalls)

-- =============================================================================
-- GameState: in-memory store with JavaScript aliasing (src/state/GameState.ts)
-- =============================================================================

/-- The `rewards` tuple of an `NPCState`. -/
structure NPCRewards where
  money : ℤ
  exp : ℤ
deriving DecidableEq, Repr

/-- `NPCState` from `core/interfaces`, as populated by `DEFAULT_NPCS`. -/
structure NPCState where
  id : String
  name : String
  title : String
  defeated : Bool
  pokemon : List String
  spriteUrl : String
  battleSpriteUrl : String
  dialogueBeforeBattle : String
  dialogueAfterDefeat : String
  rewards : NPCRewards
deriving DecidableEq, Repr

/-- The `DEFAULT_NPCS` table of `src/state/GameState.ts`. -/
def defaultNpcs : List (String × NPCState) :=
  [("gentleman_01",
    { id := "gentleman_01", name := "Mark", title := "Gentleman",
      defeated := false, pokemon := ["VENUSAUR"],
      spriteUrl := "/assets/trainer_GENTLEMAN.png",
      battleSpriteUrl := "/assets/GENTLEMAN.png",
      dialogueBeforeBattle := "I see that you need training.\nLet's battle!",
      dialogueAfterDefeat := "You already defeated me...",
      rewards := { money := 1000, exp := 500 } }),
   ("gentleman_02",
    { id := "gentleman_02", name := "James", title := "Gentleman",
      defeated := false, pokemon := ["BLASTOISE"],
      spriteUrl := "/assets/trainer_GENTLEMAN.png",
      battleSpriteUrl := "/assets/GENTLEMAN.png",
      dialogueBeforeBattle := "I am the second guardian.",
      dialogueAfterDefeat := "You already defeated me...",
      rewards := { money := 1500, exp := 750 } })]

/-- The `DEFAULT_FLAGS` table. -/
def defaultFlags : List (String × Bool) :=
  [("tutorialComplete", false), ("firstBattleWon", false)]

/-- The mutable state reachable from a `GameState` instance, with the
JavaScript aliasing made explicit.

The constructor and `reset()` both run
`this.player = { ...DEFAULT_PLAYER }` and
`this.npcs = new Map(Object.entries(DEFAULT_NPCS))`.  The spread and
`Object.entries` are shallow: the copy's `position` field is the same
object as `DEFAULT_PLAYER.position`, and each value of the map is the
same object as the corresponding `DEFAULT_NPCS` entry.  Consequently
`setPlayerPosition` (which writes `this.player.position.x` in place) and
`setNPCDefeated` (which writes `npc.defeated` in place) mutate those
shared module-level objects, and a later shallow re-copy sees the
mutated values.  `posX`/`posY`/`posMap` model the single shared position
object; `npcDefeated` models the `defeated` flags of the shared
`NPCState` objects.  `money`, `flags` and `currentMap` are own
properties of the instance's copies (primitives copied by value), so
the shallow copy genuinely resets them. -/
structure GameStateH where
  posX : ℤ
  posY : ℤ
  posMap : String
  npcDefeated : List (String × Bool)
  money : ℤ
  flags : List (String × Bool)
  currentMap : String
deriving DecidableEq, Repr

/-- The state right after `new GameState()` at process start, when the
shared default objects are still unmutated: position `{x:0, y:0,
map:'tower'}`, every NPC undefeated, money 3000, default flags,
current map `'tower'`. -/
def initGameStateH : GameStateH :=
  { posX := 0, posY := 0, posMap := "tower"
    npcDefeated := defaultNpcs.map (fun e => (e.1, e.2.defeated))
    money := 3000
    flags := defaultFlags
    currentMap := "tower" }

/-- `GameState.setPlayerPosition(x, y, map?)`: writes the shared
position object in place; the map id is only assigned when `map` is
truthy (so an omitted argument or empty string leaves it unchanged). -/
def GameStateH.setPlayerPosition (g : GameStateH) (x y : ℤ)
    (map : Option String) : GameStateH :=
  { g with
    posX := x
    posY := y
    posMap := match map with
      | some m => if m = "" then g.posMap else m
      | none => g.posMap }

/-- The in-place `npc.defeated = true` write of `setNPCDefeated`,
guarded by `npc && !npc.defeated`: an absent id or an already-defeated
NPC leaves the table untouched. -/
def markDefeated (id : String) : List (String × Bool) → List (String × Bool)
  | [] => []
  | (k, d) :: rest =>
    if k = id then (if d then (k, d) :: rest else (k, true) :: rest)
    else (k, d) :: markDefeated id rest

/-- `GameState.setNPCDefeated(id)`. -/
def GameStateH.setNPCDefeated (g : GameStateH) (id : String) : GameStateH :=
  { g with npcDefeated := markDefeated id g.npcDefeated }

/-- `GameState.isNPCDefeated(id)`: `this.npcs.get(id)?.defeated ?? false`. -/
def GameStateH.isNPCDefeated (g : GameStateH) (id : String) : Bool :=
  (lookupA id g.npcDefeated).getD false

/-- `GameState.addMoney(amount)`. -/
def GameStateH.addMoney (g : GameStateH) (amount : ℤ) : GameStateH :=
  { g with money := g.money + amount }

/-- JavaScript object key assignment `this.flags[key] = value`:
overwrite the entry when the key is present, otherwise append it. -/
def setAssoc (k : String) (v : Bool) :
    List (String × Bool) → List (String × Bool)
  | [] => [(k, v)]
  | (k', v') :: rest =>
    if k' = k then (k', v) :: rest else (k', v') :: setAssoc k v rest

/-- `GameState.setFlag(key, value)`. -/
def GameStateH.setFlag (g : GameStateH) (key : String) (value : Bool) :
    GameStateH :=
  { g with flags := setAssoc key value g.flags }

/-- `GameState.getFlag(key)`: `this.flags[key] ?? false`. -/
def GameStateH.getFlag (g : GameStateH) (key : String) : Bool :=
  (lookupA key g.flags).getD false

/-- `GameState.reset()`: `player = { ...DEFAULT_PLAYER }`,
`npcs = new Map(Object.entries(DEFAULT_NPCS))`,
`flags = { ...DEFAULT_FLAGS }`, `currentMap = 'tower'`.  Because the
copies are shallow (see `GameStateH`), the shared position object and
the shared `NPCState` objects — with any in-place mutations they have
received — survive: only `money` (a primitive own property of the fresh
player copy), `flags` and `currentMap` actually return to their
defaults. -/
def GameStateH.reset (g : GameStateH) : GameStateH :=
  { g with
    money := 3000
    flags := defaultFlags
    currentMap := "tower" }

/-- The `if (data.moneyGained) this.addMoney(data.moneyGained)` step of
the `battle:complete` listener: an absent field or the (falsy) value 0
credits nothing. -/
def GameStateH.creditMoney (g : GameStateH) (moneyGained : Option ℤ) :
    GameStateH :=
  match moneyGained with
  | some v => if v = 0 then g else g.addMoney v
  | none => g

/-- The `if (!this.flags.firstBattleWon) this.setFlag(...)` step of the
`battle:complete` listener. -/
def GameStateH.creditFirstWin (g : GameStateH) : GameStateH :=
  if g.getFlag "firstBattleWon" = false then g.setFlag "firstBattleWon" true
  else g

/-- The `battle:complete` listener installed by
`GameState.setupEventListeners`: on `result === 'win'`, mark the NPC
defeated, credit `data.moneyGained` when it is truthy, and set
`firstBattleWon` when not already set. -/
def GameStateH.handleBattleComplete (g : GameStateH) (npcId : String)
    (result : String) (moneyGained : Option ℤ) : GameStateH :=
  if result = "win" then
    ((g.setNPCDefeated npcId).creditMoney moneyGained).creditFirstWin
  else g

-- =============================================================================
-- GameState persistence (serialize / deserialize)
-- =============================================================================

/-- JSON values extended with JavaScript `undefined` (which member
access on a parsed object can produce, though `JSON.parse` itself never
yields it). -/
inductive Json where
  | null
  | undef
  | bool (b : Bool)
  | num (q : ℚ)
  | str (s : String)
  | arr (elems : List Json)
  | obj (fields : List (String × Json))
deriving Repr

/-- JavaScript member access `value[key]` on a value already known not
to be `null`/`undefined`: a field of an object (or `undefined` when
absent), `undefined` on every other value for the property names the
code uses. -/
def jsField (j : Json) (k : String) : Json :=
  match j with
  | Json.obj fields => (lookupA k fields).getD Json.undef
  | _ => Json.undef

/-- `Object.entries(value)`: throws a `TypeError` on `null`/`undefined`;
returns the own enumerable string-keyed entries of an object; returns
index/character entries for strings and index entries for arrays; and
returns `[]` for the remaining primitives. -/
def objectEntries (j : Json) : Except Unit (List (String × Json)) :=
  match j with
  | Json.null => Except.error ()
  | Json.undef => Except.error ()
  | Json.obj fields => Except.ok fields
  | Json.str s => Except.ok (s.toList.enum.map
      (fun p => (toString p.1, Json.str (String.mk [p.2]))))
  | Json.arr elems => Except.ok (elems.enum.map
      (fun p => (toString p.1, p.2)))
  | _ => Except.ok []

/-- The four sections of a `GameState` instance as the persistence code
sees them: `this.player`, the entries of `this.npcs`, `this.flags` and
`this.currentMap`.  After a successful `deserialize` these fields hold
whatever the parsed document contained, so they are modelled as raw
JSON values. -/
structure GameStateSer where
  player : Json
  npcs : List (String × Json)
  flags : Json
  currentMap : Json

/-- `GameState.serialize()`: `JSON.stringify({player, npcs:
Object.fromEntries(this.npcs), flags, currentMap})`, modelled at the
level of the JSON document it produces.  For documents free of
`undefined` (see `jsonNoUndef`), `JSON.parse ∘ JSON.stringify` is the
identity on this tree, so the string itself is not modelled. -/
def GameStateSer.serialize (s : GameStateSer) : Json :=
  Json.obj [("player", s.player), ("npcs", Json.obj s.npcs),
            ("flags", s.flags), ("currentMap", s.currentMap)]

/-- `GameState.deserialize(data)` with the result of `JSON.parse(data)`
passed in (`none` when parsing throws).  The body assigns, in source
order inside one `try`: `this.player = parsed.player`, then
`this.npcs = new Map(Object.entries(parsed.npcs))`, then `this.flags`
and `this.currentMap`.  A throw at any point is caught and logged, and
— JavaScript exceptions not rolling back prior assignments — leaves the
assignments already performed in place: if `JSON.parse` threw or
`parsed` is `null` (so `parsed.player` itself throws) nothing was
assigned; if `Object.entries(parsed.npcs)` throws, `player` has already
been overwritten. -/
def GameStateSer.deserialize (parseResult : Option Json) (s : GameStateSer) :
    GameStateSer :=
  match parseResult with
  | none => s
  | some Json.null => s
  | some parsed =>
    let pl := jsField parsed "player"
    match objectEntries (jsField parsed "npcs") with
    | Except.error _ => { s with player := pl }
    | Except.ok entries =>
      { player := pl, npcs := entries,
        flags := jsField parsed "flags",
        currentMap := jsField parsed "currentMap" }

mutual

/-- `undefined` does not occur in this JSON value (mutually with its
field lists): exactly the values in the image of `JSON.parse`, on which
`JSON.stringify` is a faithful inverse. -/
def jsonNoUndef : Json → Bool
  | Json.undef => false
  | Json.obj fields => fieldsNoUndef fields
  | Json.arr elems => elemsNoUndef elems
  | _ => true

/-- `undefined`-freeness of an object's field list. -/
def fieldsNoUndef : List (String × Json) → Bool
  | [] => true
  | (_, v) :: rest => jsonNoUndef v && fieldsNoUndef rest

/-- `undefined`-freeness of an array's element list. -/
def elemsNoUndef : List Json → Bool
  | [] => true
  | v :: rest => jsonNoUndef v && elemsNoUndef rest

end

/-- A concrete serialized-view state used by the persistence theorems:
a sensible player object, an NPC table with a `defeated: true` entry,
a flags object and a map id. -/
def sampleSer : GameStateSer :=
  { player := Json.obj [("name", Json.str "RED"), ("money", Json.num 3000)]
    npcs := [("gentleman_01",
              Json.obj [("id", Json.str "gentleman_01"),
                        ("defeated", Json.bool true)]),
             ("gentleman_02",
              Json.obj [("id", Json.str "gentleman_02"),
                        ("defeated", Json.bool false)])]
    flags := Json.obj [("tutorialComplete", Json.bool false),
                       ("firstBattleWon", Json.bool true)]
    currentMap := Json.str "tower" }

-- =============================================================================
-- Helper lemmas (shared)
-- =============================================================================

/-- The state invariant of a battle `Pokemon` under nonnegative damage:
HP between 0 and the stat block's `maxHp`, and the faint flag tracking
`currentHp = 0` exactly. -/
def PokemonInv (maxHp : ℚ) (p : Pokemon) : Prop :=
  0 ≤ p.currentHp ∧ p.currentHp ≤ maxHp ∧ (p.isFainted = true ↔ p.currentHp = 0)

theorem takeDamage_preserves_inv (maxHp : ℚ) (p : Pokemon) (a : ℚ)
    (h : PokemonInv maxHp p) (ha : 0 ≤ a) : PokemonInv maxHp (p.takeDamage a) := by
  obtain ⟨h0, hmax, hiff⟩ := h
  unfold Pokemon.takeDamage PokemonInv
  simp only
  constructor
  · exact le_max_left 0 _
  constructor
  · exact max_le (le_trans h0 hmax) (le_trans (by linarith) hmax)
  · by_cases hle : max 0 (p.currentHp - a) ≤ 0
    · simp only [hle, if_true, true_iff]
      exact le_antisymm hle (le_max_left 0 _)
    · simp only [hle, if_false]
      push_neg at hle
      constructor
      · intro hf
        exfalso
        have hp0 : p.currentHp = 0 := hiff.mp hf
        rw [hp0] at hle
        have : max 0 (0 - a) = 0 := by
          simp [max_eq_left]
          linarith
        rw [this] at hle
        exact lt_irrefl 0 hle
      · intro hz
        rw [hz] at hle
        exact absurd rfl (ne_of_gt hle)

theorem runTakeDamage_preserves_inv (maxHp : ℚ) (p : Pokemon) (l : List ℚ)
    (h : PokemonInv maxHp p) (hl : ∀ a ∈ l, 0 ≤ a) :
    PokemonInv maxHp (p.runTakeDamage l) := by
  induction l generalizing p with
  | nil => exact h
  | cons a rest ih =>
    have := takeDamage_preserves_inv maxHp p a h (hl a (List.mem_cons_self a rest))
    exact ih _ this (fun b hb => hl b (List.mem_cons_of_mem a hb))

-- =============================================================================
-- C1: damage formula
-- =============================================================================

/-- C1 (counterexample): with the random factor fixed at 1.0, a level-50
attacker using a power-50 move with attack stat 83 against defense stat
83 (the registry's BLASTOISE attacking VENUSAUR with WATER GUN) deals 24
damage, not 16 as the claim computes: the level factor at level 50 is
`2*50/5 + 2 = 22`, so the base is `22*50*1/50 + 2 = 24`. -/
theorem damage_at_unit_factor_is_24_not_16 :
    (mkPokemon blastoiseConfig).calculateDamageAtFactor
      (mkPokemon venusaurConfig) ⟨"WATER GUN", 50⟩ 1 = 24 ∧
    (mkPokemon blastoiseConfig).calculateDamageAtFactor
      (mkPokemon venusaurConfig) ⟨"WATER GUN", 50⟩ 1 ≠ 16 := by
  norm_num [Pokemon.calculateDamageAtFactor, mkPokemon, blastoiseConfig,
    venusaurConfig, Pokemon.attack, Pokemon.defense]

/-- C1 (amended): `calculateDamage` returns `floor(base * f)` for some
`f ∈ [0.85, 1)` (namely `f = 0.85 + rnd * 0.15` for the sampled
`rnd ∈ [0, 1)`), where `base` is the spec's
`((2*level/5 + 2) * power * (attack/defense)) / 50 + 2`; and with the
random factor fixed at 1.0 the level-50, power-50, 83-vs-83 example
deals exactly 24 damage (not 16). -/
theorem calculateDamage_floor_base_factor (attacker target : Pokemon)
    (move : Move) (rnd : ℚ) (h0 : 0 ≤ rnd) (h1 : rnd < 1) :
    (∃ f : ℚ, 85/100 ≤ f ∧ f < 1 ∧
       Pokemon.calculateDamage attacker target move rnd =
         Int.floor (specBaseDamage attacker.level move.power attacker.attack
           target.defense * f)) ∧
    (mkPokemon blastoiseConfig).calculateDamageAtFactor
      (mkPokemon venusaurConfig) ⟨"WATER GUN", 50⟩ 1 = 24 := by
  constructor
  · refine ⟨85/100 + rnd * (15/100), ?_, ?_, ?_⟩
    · nlinarith
    · nlinarith
    · rfl
  · norm_num [Pokemon.calculateDamageAtFactor, mkPokemon, blastoiseConfig,
      venusaurConfig, Pokemon.attack, Pokemon.defense]

/-- C1 witness: the amended theorem instantiated at the registry's
BLASTOISE attacking VENUSAUR with WATER GUN and `rnd = 1/2`. -/
theorem calculateDamage_floor_base_factor_witness :
    (0 : ℚ) ≤ 1/2 ∧ (1/2 : ℚ) < 1 ∧
    ((∃ f : ℚ, 85/100 ≤ f ∧ f < 1 ∧
       Pokemon.calculateDamage (mkPokemon blastoiseConfig)
         (mkPokemon venusaurConfig) ⟨"WATER GUN", 50⟩ (1/2) =
         Int.floor (specBaseDamage (mkPokemon blastoiseConfig).level
           (Move.mk "WATER GUN" 50).power (mkPokemon blastoiseConfig).attack
           (mkPokemon venusaurConfig).defense * f)) ∧
     (mkPokemon blastoiseConfig).calculateDamageAtFactor
       (mkPokemon venusaurConfig) ⟨"WATER GUN", 50⟩ 1 = 24) :=
  ⟨by norm_num, by norm_num,
   calculateDamage_floor_base_factor _ _ _ (1/2) (by norm_num) (by norm_num)⟩

-- =============================================================================
-- C2: takeDamage HP clamp and faint flag
-- =============================================================================

/-- C2 (counterexample): the claim quantifies over every sequence of
`takeDamage(amount)` calls, but a negative amount heals past the cap:
`takeDamage(-150)` on a full-HP 100-max BLASTOISE leaves
`currentHp = 250 > maxHp`. -/
theorem takeDamage_negative_amount_exceeds_maxHp :
    ((mkPokemon blastoiseConfig).runTakeDamage [-150]).currentHp = 250 ∧
    (mkPokemon blastoiseConfig).maxHp = 100 ∧
    ¬ ((mkPokemon blastoiseConfig).runTakeDamage [-150]).currentHp ≤
        (mkPokemon blastoiseConfig).maxHp := by
  norm_num [Pokemon.runTakeDamage, Pokemon.takeDamage, Pokemon.maxHp,
    mkPokemon, blastoiseConfig]

/-- C2 (amended): after each `takeDamage` call `currentHp` equals
`max(0, previous - amount)` (for arbitrary amounts); and for every
sequence of nonnegative amounts on a pokemon with positive `maxHp`,
after each call (every take-prefix of the sequence) `currentHp` stays
within `[0, maxHp]` and `isFainted` holds exactly when
`currentHp = 0`. -/
theorem takeDamage_hp_clamp_invariants :
    (∀ (p : Pokemon) (a : ℚ),
       (p.takeDamage a).currentHp = max 0 (p.currentHp - a)) ∧
    ∀ (config : PokemonConfig) (amounts : List ℚ) (n : ℕ),
      0 < config.stats.maxHp → (∀ a ∈ amounts, 0 ≤ a) →
      0 ≤ ((mkPokemon config).runTakeDamage (amounts.take n)).currentHp ∧
      ((mkPokemon config).runTakeDamage (amounts.take n)).currentHp ≤
        config.stats.maxHp ∧
      (((mkPokemon config).runTakeDamage (amounts.take n)).isFainted = true ↔
        ((mkPokemon config).runTakeDamage (amounts.take n)).currentHp = 0) := by
  constructor
  · intro p a
    rfl
  · intro config amounts n hmax hnn
    have hinit : PokemonInv config.stats.maxHp (mkPokemon config) := by
      refine ⟨le_of_lt hmax, le_refl _, ?_⟩
      unfold mkPokemon
      simp only
      constructor
      · intro h
        cases h
      · intro h
        exact absurd h (ne_of_gt hmax)
    exact runTakeDamage_preserves_inv _ _ _ hinit
      (fun a ha => hnn a (List.take_subset n amounts ha))

/-- C2 witness: the amended theorem at BLASTOISE taking the damage
sequence `[30, 200]`. -/
theorem takeDamage_hp_clamp_invariants_witness :
    0 < blastoiseConfig.stats.maxHp ∧ (∀ a ∈ ([30, 200] : List ℚ), 0 ≤ a) ∧
    (0 ≤ ((mkPokemon blastoiseConfig).runTakeDamage
        (([30, 200] : List ℚ).take 2)).currentHp ∧
     ((mkPokemon blastoiseConfig).runTakeDamage
        (([30, 200] : List ℚ).take 2)).currentHp ≤
       blastoiseConfig.stats.maxHp ∧
     (((mkPokemon blastoiseConfig).runTakeDamage
        (([30, 200] : List ℚ).take 2)).isFainted = true ↔
      ((mkPokemon blastoiseConfig).runTakeDamage
        (([30, 200] : List ℚ).take 2)).currentHp = 0)) :=
  ⟨by norm_num [blastoiseConfig], by norm_num,
   takeDamage_hp_clamp_invariants.2 blastoiseConfig [30, 200] 2
     (by norm_num [blastoiseConfig]) (by norm_num)⟩

-- =============================================================================
-- C3: unmapped / undefined move selection is a no-op in PlayerTurn
-- =============================================================================

theorem keyMoveMap_lt_four {key : String} {i : ℕ} (h : keyMoveMap key = some i) :
    i < 4 := by
  unfold keyMoveMap at h
  split_ifs at h <;> simp_all <;> omega

/-- C3: during `PLAYER_TURN`, a move-selection input whose index has no
move defined (on a 4-move pokemon this is exactly a key outside
`keyMoveMap`, e.g. the key "5") is a no-op: `onKeyPressed` leaves the
scene unchanged, and the subsequent `handleStateTransitions` keeps the
state at `PLAYER_TURN` with no `battle:complete` emission — in
particular no transition to `PLAYER_ATTACK` ever happens. -/
theorem playerTurn_undefined_move_selection_noop (s : BScene) (key : String)
    (hturn : s.currentState = BattleSt.playerTurn)
    (hlen : s.playerMoves.length = 4)
    (hnone : ∀ i : ℕ, keyMoveMap key = some i → s.playerMoves.get? i = none) :
    s.onKeyPressed key = s ∧
    (s.onKeyPressed key).handleStateTransitions = (s, none) ∧
    ((s.onKeyPressed key).handleStateTransitions).1.currentState =
      BattleSt.playerTurn := by
  have hk : keyMoveMap key = none := by
    cases h : keyMoveMap key with
    | none => rfl
    | some i =>
      exfalso
      have hlt : i < 4 := keyMoveMap_lt_four h
      have hget : s.playerMoves.get? i = none := hnone i h
      rw [List.get?_eq_none] at hget
      omega
  have h1 : s.onKeyPressed key = s := by
    unfold BScene.onKeyPressed
    rw [hk]
    simp
  refine ⟨h1, ?_, ?_⟩
  · rw [h1]
    unfold BScene.handleStateTransitions BScene.handleBattleEnd
    simp [hturn]
  · rw [h1]
    unfold BScene.handleStateTransitions BScene.handleBattleEnd
    simp [hturn]

/-- C3 witness: a `PLAYER_TURN` scene holding BLASTOISE's four moves
receiving the key "5". -/
theorem playerTurn_undefined_move_selection_noop_witness :
    ((⟨BattleSt.playerTurn, -1, blastoiseConfig.moves, false, false,
        "gentleman_01"⟩ : BScene).currentState = BattleSt.playerTurn) ∧
    ((⟨BattleSt.playerTurn, -1, blastoiseConfig.moves, false, false,
        "gentleman_01"⟩ : BScene).playerMoves.length = 4) ∧
    (∀ i : ℕ, keyMoveMap "5" = some i →
      (⟨BattleSt.playerTurn, -1, blastoiseConfig.moves, false, false,
        "gentleman_01"⟩ : BScene).playerMoves.get? i = none) ∧
    ((⟨BattleSt.playerTurn, -1, blastoiseConfig.moves, false, false,
        "gentleman_01"⟩ : BScene).onKeyPressed "5" =
      ⟨BattleSt.playerTurn, -1, blastoiseConfig.moves, false, false,
        "gentleman_01"⟩ ∧
     ((⟨BattleSt.playerTurn, -1, blastoiseConfig.moves, false, false,
        "gentleman_01"⟩ : BScene).onKeyPressed "5").handleStateTransitions =
      (⟨BattleSt.playerTurn, -1, blastoiseConfig.moves, false, false,
        "gentleman_01"⟩, none) ∧
     (((⟨BattleSt.playerTurn, -1, blastoiseConfig.moves, false, false,
        "gentleman_01"⟩ : BScene).onKeyPressed
          "5").handleStateTransitions).1.currentState =
      BattleSt.playerTurn) :=
  ⟨rfl, by simp [blastoiseConfig],
   by intro i h; simp [keyMoveMap] at h,
   playerTurn_undefined_move_selection_noop _ "5" rfl
     (by simp [blastoiseConfig]) (by intro i h; simp [keyMoveMap] at h)⟩

-- =============================================================================
-- C10: battle:complete rewards are hard-coded, NPC config not consulted
-- =============================================================================

/-- C10: whenever `handleBattleEnd` processes a win (the NPC pokemon
fainted), the queued `battle:complete` payload carries
`moneyGained = 1000` and `expGained = 500` for every `npcId`; the
defeated NPC's configured reward tuple is never consulted — in
particular `gentleman_02`'s configured rewards are `{money: 1500,
exp: 750}`, which differ from the emitted constants. -/
theorem handleBattleEnd_win_rewards_hardcoded (s : BScene)
    (hwin : s.npcFainted = true) :
    s.handleBattleEnd =
      ({ s with currentState := BattleSt.winnerDeclared },
       some { npcId := s.currentNpcId, result := "win",
              expGained := some 500, moneyGained := some 1000 }) ∧
    (lookupA "gentleman_02" defaultNpcs).map (fun n => n.rewards) =
      some { money := 1500, exp := 750 } ∧
    ({ money := 1500, exp := 750 } : NPCRewards) ≠
      { money := 1000, exp := 500 } := by
  refine ⟨?_, ?_, ?_⟩
  · unfold BScene.handleBattleEnd
    rw [hwin]
    simp
  · simp [lookupA, defaultNpcs]
  · intro h
    cases h

/-- C10 witness: a battle-end scene against `gentleman_02` whose NPC
pokemon has fainted. -/
theorem handleBattleEnd_win_rewards_hardcoded_witness :
    ((⟨BattleSt.battleEnd, 3, blastoiseConfig.moves, true, false,
        "gentleman_02"⟩ : BScene).npcFainted = true) ∧
    ((⟨BattleSt.battleEnd, 3, blastoiseConfig.moves, true, false,
        "gentleman_02"⟩ : BScene).handleBattleEnd =
      ({ (⟨BattleSt.battleEnd, 3, blastoiseConfig.moves, true, false,
           "gentleman_02"⟩ : BScene) with
         currentState := BattleSt.winnerDeclared },
       some { npcId := "gentleman_02", result := "win",
              expGained := some 500, moneyGained := some 1000 }) ∧
     (lookupA "gentleman_02" defaultNpcs).map (fun n => n.rewards) =
       some { money := 1500, exp := 750 } ∧
     ({ money := 1500, exp := 750 } : NPCRewards) ≠
       { money := 1000, exp := 500 }) :=
  ⟨rfl, handleBattleEnd_win_rewards_hardcoded _ rfl⟩

-- =============================================================================
-- C4: dialog completion callback exactly once
-- =============================================================================

theorem update_of_complete (d : DialogBox) (dt : ℚ) (h : d.isComplete = true) :
    d.update dt = (d, 0) := by
  unfold DialogBox.update
  simp [h]

theorem runUpdates_cons (d : DialogBox) (dt : ℚ) (rest : List ℚ) :
    d.runUpdates (dt :: rest) =
      (((d.update dt).1.runUpdates rest).1,
       (d.update dt).2 + ((d.update dt).1.runUpdates rest).2) := rfl

theorem runUpdates_of_complete (d : DialogBox) (l : List ℚ)
    (h : d.isComplete = true) : d.runUpdates l = (d, 0) := by
  induction l with
  | nil => rfl
  | cons dt rest ih =>
    rw [runUpdates_cons, update_of_complete d dt h]
    simp [ih]

theorem update_count_cases (d : DialogBox) (dt : ℚ) (h : d.isComplete = false) :
    ((d.update dt).1.isComplete = false ∧ (d.update dt).2 = 0 ∧
      (d.update dt).1.hasCallback = d.hasCallback) ∨
    ((d.update dt).1.isComplete = true ∧
      (d.update dt).2 = (if d.hasCallback then 1 else 0)) := by
  unfold DialogBox.update
  by_cases hv : d.isVisible = false ∨ d.isComplete = true
  · left
    have hv' : d.isVisible = false := by
      rcases hv with hv | hv
      · exact hv
      · rw [h] at hv
        cases hv
    simp [hv', h]
  · simp only [if_neg hv]
    by_cases hq : (consumeChars (1000 / d.textSpeed) (d.timer + dt)
        d.charQueue d.displayedText).2.1 = []
    · right
      simp [hq, DialogBox.completeText]
    · left
      simp [hq, h]

theorem runUpdates_count_cases (d : DialogBox) (l : List ℚ)
    (h : d.isComplete = false) :
    ((d.runUpdates l).1.isComplete = false ∧ (d.runUpdates l).2 = 0 ∧
      (d.runUpdates l).1.hasCallback = d.hasCallback) ∨
    ((d.runUpdates l).1.isComplete = true ∧
      (d.runUpdates l).2 = (if d.hasCallback then 1 else 0)) := by
  induction l generalizing d with
  | nil => exact Or.inl ⟨h, rfl, rfl⟩
  | cons dt rest ih =>
    rw [runUpdates_cons]
    rcases update_count_cases d dt h with ⟨hc, hn, hcb⟩ | ⟨hc, hn⟩
    · rcases ih (d.update dt).1 hc with ⟨hc2, hn2, hcb2⟩ | ⟨hc2, hn2⟩
      · left
        refine ⟨hc2, ?_, hcb2.trans hcb⟩
        simp [hn, hn2]
      · right
        refine ⟨hc2, ?_⟩
        simp [hn, hn2, hcb]
    · right
      rw [runUpdates_of_complete _ rest hc]
      simpa [hn] using hc

/-- C4: after `displayText(s, cb)`, any sequence of `update` calls that
exhausts the character queue (leaving the box complete) invokes the
completion callback exactly once, and any further `update` calls after
completion invoke it zero more times and leave the box unchanged. -/
theorem dialog_callback_exactly_once (d : DialogBox) (content : List Char)
    (dts dts' : List ℚ)
    (hdone : ((d.displayText content true).runUpdates dts).1.isComplete = true) :
    ((d.displayText content true).runUpdates dts).2 = 1 ∧
    (((d.displayText content true).runUpdates dts).1.runUpdates dts').2 = 0 ∧
    (((d.displayText content true).runUpdates dts).1.runUpdates dts').1 =
      ((d.displayText content true).runUpdates dts).1 := by
  have hstart : (d.displayText content true).isComplete = false := rfl
  have hcb : (d.displayText content true).hasCallback = true := rfl
  rcases runUpdates_count_cases (d.displayText content true) dts hstart with
    ⟨hc, _, _⟩ | ⟨_, hn⟩
  · rw [hc] at hdone
    cases hdone
  · refine ⟨?_, ?_, ?_⟩
    · rw [hn, hcb]
      rfl
    · rw [runUpdates_of_complete _ dts' hdone]
    · rw [runUpdates_of_complete _ dts' hdone]

/-- C4 witness: a visible dialog box at 100 chars/second showing "ab";
one 1000 ms update exhausts the queue and fires the callback once, and
a further 500 ms update fires nothing. -/
theorem dialog_callback_exactly_once_witness :
    ((((⟨[], [], [], 100, 0, true, false, false⟩ : DialogBox).displayText
        ['a', 'b'] true).runUpdates [1000]).1.isComplete = true) ∧
    (((((⟨[], [], [], 100, 0, true, false, false⟩ : DialogBox).displayText
        ['a', 'b'] true).runUpdates [1000]).2 = 1) ∧
     ((((⟨[], [], [], 100, 0, true, false, false⟩ : DialogBox).displayText
        ['a', 'b'] true).runUpdates [1000]).1.runUpdates [500]).2 = 0 ∧
     ((((⟨[], [], [], 100, 0, true, false, false⟩ : DialogBox).displayText
        ['a', 'b'] true).runUpdates [1000]).1.runUpdates [500]).1 =
       (((⟨[], [], [], 100, 0, true, false, false⟩ : DialogBox).displayText
        ['a', 'b'] true).runUpdates [1000]).1) :=
  ⟨by norm_num [DialogBox.runUpdates, DialogBox.update, DialogBox.displayText,
      consumeChars, DialogBox.completeText],
   dialog_callback_exactly_once _ ['a', 'b'] [1000] [500]
     (by norm_num [DialogBox.runUpdates, DialogBox.update,
       DialogBox.displayText, consumeChars, DialogBox.completeText])⟩

-- =============================================================================
-- C5: deserialize error handling
-- =============================================================================

/-- C5 (counterexample): `deserialize` on the well-formed JSON text
`"{}"` (which parses but lacks both sections) does not leave the state
untouched: `this.player` is assigned `parsed.player` (`undefined`)
before `Object.entries(parsed.npcs)` throws, so the player section is
overwritten while the other sections keep their old values — a partial
overwrite. -/
theorem deserialize_empty_object_overwrites_player :
    (GameStateSer.deserialize (some (Json.obj [])) sampleSer).player =
      Json.undef ∧
    sampleSer.player = Json.obj [("name", Json.str "RED"),
      ("money", Json.num 3000)] ∧
    Json.undef ≠ Json.obj [("name", Json.str "RED"),
      ("money", Json.num 3000)] ∧
    (GameStateSer.deserialize (some (Json.obj [])) sampleSer).npcs =
      sampleSer.npcs ∧
    (GameStateSer.deserialize (some (Json.obj [])) sampleSer).flags =
      sampleSer.flags ∧
    (GameStateSer.deserialize (some (Json.obj [])) sampleSer).currentMap =
      sampleSer.currentMap :=
  ⟨rfl, rfl, fun h => Json.noConfusion h, rfl, rfl, rfl⟩

/-- C5 (amended): `deserialize` never lets an exception past the call
boundary (it is a total function of the parse result); when `JSON.parse`
fails, or parses to `null`, the in-memory state is left completely
untouched; and when a parseable non-null input's `npcs` section makes
`Object.entries` throw, exactly the player section has been overwritten
(with the parsed `player` value) and the other three sections are left
untouched. -/
theorem deserialize_no_throw_failure_modes (s : GameStateSer) (j : Json)
    (e : Unit) (hnpcs : objectEntries (jsField j "npcs") = Except.error e)
    (hnotnull : j ≠ Json.null) :
    GameStateSer.deserialize none s = s ∧
    GameStateSer.deserialize (some Json.null) s = s ∧
    GameStateSer.deserialize (some j) s =
      { s with player := jsField j "player" } := by
  refine ⟨rfl, rfl, ?_⟩
  cases j with
  | null => exact absurd rfl hnotnull
  | undef => simp [GameStateSer.deserialize, hnpcs]
  | bool b => simp [GameStateSer.deserialize, hnpcs]
  | num q => simp [GameStateSer.deserialize, hnpcs]
  | str s => simp [GameStateSer.deserialize, hnpcs]
  | arr es => simp [GameStateSer.deserialize, hnpcs]
  | obj fields => simp [GameStateSer.deserialize, hnpcs]

/-- C5 witness: the amended theorem at the sample state and the parsed
document `{}`. -/
theorem deserialize_no_throw_failure_modes_witness :
    objectEntries (jsField (Json.obj []) "npcs") = Except.error () ∧
    Json.obj [] ≠ Json.null ∧
    (GameStateSer.deserialize none sampleSer = sampleSer ∧
     GameStateSer.deserialize (some Json.null) sampleSer = sampleSer ∧
     GameStateSer.deserialize (some (Json.obj [])) sampleSer =
       { sampleSer with player := jsField (Json.obj []) "player" }) :=
  ⟨rfl, fun h => Json.noConfusion h,
   deserialize_no_throw_failure_modes sampleSer (Json.obj []) () rfl
     (fun h => Json.noConfusion h)⟩

-- =============================================================================
-- C6: reset does not restore the mutated shared defaults
-- =============================================================================

/-- C6 (code bug): `reset()` is supposed to restore all four sections to
the static defaults, but the shallow `{ ...DEFAULT_PLAYER }` spread and
`new Map(Object.entries(DEFAULT_NPCS))` share the nested position
object and the `NPCState` objects with the mutated module-level
defaults.  After `setNPCDefeated('gentleman_01')` and
`setPlayerPosition(5, 7)`, a `reset()` leaves the NPC still defeated
and the player position at `(5, 7)` — only `money`, `flags` and
`currentMap` return to their defaults (`money = 3000` shown here). -/
theorem reset_keeps_mutated_position_and_defeat_flags :
    ((((initGameStateH.setNPCDefeated "gentleman_01").setPlayerPosition 5 7
        none).reset).isNPCDefeated "gentleman_01" = true) ∧
    ((((initGameStateH.setNPCDefeated "gentleman_01").setPlayerPosition 5 7
        none).reset).posX = 5) ∧
    ((((initGameStateH.setNPCDefeated "gentleman_01").setPlayerPosition 5 7
        none).reset).posY = 7) ∧
    initGameStateH.isNPCDefeated "gentleman_01" = false ∧
    initGameStateH.posX = 0 ∧ initGameStateH.posY = 0 ∧
    ((((initGameStateH.setNPCDefeated "gentleman_01").setPlayerPosition 5 7
        none).reset).money = 3000) ∧
    ((((initGameStateH.setNPCDefeated "gentleman_01").setPlayerPosition 5 7
        none).reset).flags = defaultFlags) ∧
    ((((initGameStateH.setNPCDefeated "gentleman_01").setPlayerPosition 5 7
        none).reset).currentMap = "tower") := by
  refine ⟨rfl, rfl, rfl, rfl, rfl, rfl, rfl, rfl, rfl⟩

-- =============================================================================
-- C7: repeated battle:complete wins
-- =============================================================================

/-- C7 (counterexample): with `gentleman_01` already defeated, handling
a second `battle:complete {npcId: 'gentleman_01', result: 'win',
moneyGained: 1000}` changes observable state: the handler credits the
money again, moving `money` from 4000 to 5000. -/
theorem repeated_win_reapplies_money :
    ((initGameStateH.handleBattleComplete "gentleman_01" "win"
        (some 1000)).isNPCDefeated "gentleman_01" = true) ∧
    ((initGameStateH.handleBattleComplete "gentleman_01" "win"
        (some 1000)).money = 4000) ∧
    (((initGameStateH.handleBattleComplete "gentleman_01" "win"
        (some 1000)).handleBattleComplete "gentleman_01" "win"
        (some 1000)).money = 5000) ∧
    ((initGameStateH.handleBattleComplete "gentleman_01" "win"
        (some 1000)).handleBattleComplete "gentleman_01" "win"
        (some 1000)) ≠
      initGameStateH.handleBattleComplete "gentleman_01" "win"
        (some 1000) := by
  refine ⟨rfl, rfl, rfl, ?_⟩
  intro h
  have h2 := congrArg GameStateH.money h
  have e1 : ((initGameStateH.handleBattleComplete "gentleman_01" "win"
      (some 1000)).handleBattleComplete "gentleman_01" "win"
      (some 1000)).money = 5000 := rfl
  have e2 : (initGameStateH.handleBattleComplete "gentleman_01" "win"
      (some 1000)).money = 4000 := rfl
  rw [e1, e2] at h2
  norm_num at h2

theorem lookupA_of_defeated {g : GameStateH} {id : String}
    (h : g.isNPCDefeated id = true) : lookupA id g.npcDefeated = some true := by
  unfold GameStateH.isNPCDefeated at h
  cases hl : lookupA id g.npcDefeated with
  | none =>
    rw [hl] at h
    cases h
  | some b =>
    rw [hl] at h
    simp at h
    rw [h]

theorem markDefeated_of_defeated {id : String} :
    ∀ {l : List (String × Bool)}, lookupA id l = some true →
      markDefeated id l = l := by
  intro l
  induction l with
  | nil =>
    intro h
    cases h
  | cons p rest ih =>
    intro h
    obtain ⟨k, d⟩ := p
    unfold lookupA at h
    unfold markDefeated
    by_cases hk : k = id
    · rw [if_pos hk] at h
      have hd : d = true := by
        simpa using h
      rw [if_pos hk, hd]
      simp
    · rw [if_neg hk] at h
      rw [if_neg hk, ih h]

/-- C7 (amended): once `isNPCDefeated(id)` is true, a further
`battle:complete` win for `id` leaves the defeated table unchanged
(`setNPCDefeated` on an already-defeated NPC is a no-op and the flag
stays true) — but the money reward is not applied only once: every such
event re-credits its truthy `moneyGained`, so `money` grows by `v` on
each repeat (and is unchanged only when the field is absent or zero). -/
theorem defeated_win_noop_except_money (g : GameStateH) (id : String) (v : ℤ)
    (h : g.isNPCDefeated id = true) :
    g.setNPCDefeated id = g ∧
    (g.handleBattleComplete id "win" (some v)).npcDefeated = g.npcDefeated ∧
    ((g.handleBattleComplete id "win" (some v)).isNPCDefeated id = true) ∧
    (v ≠ 0 → (g.handleBattleComplete id "win" (some v)).money = g.money + v) ∧
    (g.handleBattleComplete id "win" none).money = g.money := by
  have hset : g.setNPCDefeated id = g := by
    unfold GameStateH.setNPCDefeated
    rw [markDefeated_of_defeated (lookupA_of_defeated h)]
  have hmoneyNpc : ∀ (g' : GameStateH) (mg : Option ℤ),
      (g'.creditMoney mg).npcDefeated = g'.npcDefeated := by
    intro g' mg
    cases mg with
    | none => rfl
    | some v =>
      simp only [GameStateH.creditMoney]
      split_ifs <;> rfl
  have hfirstNpc : ∀ g' : GameStateH,
      g'.creditFirstWin.npcDefeated = g'.npcDefeated := by
    intro g'
    unfold GameStateH.creditFirstWin
    split_ifs <;> rfl
  have hfirstMoney : ∀ g' : GameStateH,
      g'.creditFirstWin.money = g'.money := by
    intro g'
    unfold GameStateH.creditFirstWin
    split_ifs <;> rfl
  refine ⟨hset, ?_, ?_, ?_, ?_⟩
  · unfold GameStateH.handleBattleComplete
    rw [if_pos rfl, hset, hfirstNpc, hmoneyNpc]
  · unfold GameStateH.handleBattleComplete GameStateH.isNPCDefeated
    rw [if_pos rfl, hset, hfirstNpc, hmoneyNpc]
    exact h
  · intro hv
    unfold GameStateH.handleBattleComplete
    rw [if_pos rfl, hset, hfirstMoney]
    simp only [GameStateH.creditMoney]
    rw [if_neg hv]
    rfl
  · unfold GameStateH.handleBattleComplete
    rw [if_pos rfl, hset, hfirstMoney]
    rfl

/-- C7 witness: the amended theorem at the start state with
`gentleman_01` marked defeated and a repeat win crediting 1000. -/
theorem defeated_win_noop_except_money_witness :
    ((initGameStateH.setNPCDefeated "gentleman_01").isNPCDefeated
      "gentleman_01" = true) ∧
    ((1000 : ℤ) ≠ 0) ∧
    ((initGameStateH.setNPCDefeated "gentleman_01").setNPCDefeated
       "gentleman_01" = initGameStateH.setNPCDefeated "gentleman_01" ∧
     ((initGameStateH.setNPCDefeated "gentleman_01").handleBattleComplete
       "gentleman_01" "win" (some 1000)).npcDefeated =
       (initGameStateH.setNPCDefeated "gentleman_01").npcDefeated ∧
     (((initGameStateH.setNPCDefeated "gentleman_01").handleBattleComplete
       "gentleman_01" "win" (some 1000)).isNPCDefeated "gentleman_01" = true) ∧
     ((1000 : ℤ) ≠ 0 →
       ((initGameStateH.setNPCDefeated "gentleman_01").handleBattleComplete
         "gentleman_01" "win" (some 1000)).money =
       (initGameStateH.setNPCDefeated "gentleman_01").money + 1000) ∧
     ((initGameStateH.setNPCDefeated "gentleman_01").handleBattleComplete
       "gentleman_01" "win" none).money =
       (initGameStateH.setNPCDefeated "gentleman_01").money) :=
  ⟨rfl, by norm_num,
   defeated_win_noop_except_money _ "gentleman_01" 1000 rfl⟩

-- =============================================================================
-- C8: setScene with an unregistered name
-- =============================================================================

/-- C8: `setScene(name)` with an unregistered `name` aborts before any
lifecycle work: the returned manager equals the old one (in particular
`currentScene` is unchanged) and the lifecycle-call trace is empty — no
`onExit`, `onEnter`, `reset` or `setup` runs on any scene. -/
theorem setScene_unknown_name_noop (m : SceneManager) (name : String)
    (h : lookupA name m.scenes = none) :
    m.setScene name = (m, []) := by
  unfold SceneManager.setScene
  rw [h]

/-- C8 witness: a manager holding only a "menu" scene asked for the
unregistered scene "bogus". -/
theorem setScene_unknown_name_noop_witness :
    lookupA "bogus"
      (⟨[("menu", ⟨true, true⟩)], "menu"⟩ : SceneManager).scenes = none ∧
    (⟨[("menu", ⟨true, true⟩)], "menu"⟩ : SceneManager).setScene "bogus" =
      (⟨[("menu", ⟨true, true⟩)], "menu"⟩, []) :=
  ⟨rfl, setScene_unknown_name_noop _ "bogus" rfl⟩

-- =============================================================================
-- C9: serialize/deserialize round trip
-- =============================================================================

/-- C9: for every valid state (no `undefined` inside any of the four
sections, exactly the JSON-representable values), deserializing the
serialized document restores all four sections — `player`, `npcs`,
`flags`, `currentMap` — regardless of the in-memory state the
deserialization starts from, including NPC entries with
`defeated: true`. -/
theorem serialize_deserialize_roundtrip (s sPrev : GameStateSer)
    (hp : jsonNoUndef s.player = true) (hn : fieldsNoUndef s.npcs = true)
    (hf : jsonNoUndef s.flags = true) (hc : jsonNoUndef s.currentMap = true) :
    GameStateSer.deserialize (some s.serialize) sPrev = s := rfl

/-- C9 witness: the sample state (whose NPC table includes a
`defeated: true` entry) round-trips from an unrelated previous state. -/
theorem serialize_deserialize_roundtrip_witness :
    jsonNoUndef sampleSer.player = true ∧
    fieldsNoUndef sampleSer.npcs = true ∧
    jsonNoUndef sampleSer.flags = true ∧
    jsonNoUndef sampleSer.currentMap = true ∧
    GameStateSer.deserialize (some sampleSer.serialize)
      ⟨Json.null, [], Json.null, Json.null⟩ = sampleSer :=
  ⟨rfl, rfl, rfl, rfl,
   serialize_deserialize_roundtrip sampleSer
     ⟨Json.null, [], Json.null, Json.null⟩ rfl rfl rfl rfl⟩
